import Mathlib

/-!
Verification of the covidAPI repository (Kosovo COVID-19 REST API).

This file shallowly embeds the parts of the code that the claims concern:

* `database.js` (`executeQuery`): the query execution gateway;
* `services/automation.js` (`AutomationService`): scheduler lifecycle,
  data-refresh upserts, daily statistics, moving averages, error recording;
* `model/CovidCase.js`: rate calculators and `validate()`;
* `routes/cases.js`: `POST /cases` active-case computation and
  `GET /cases/latest`.

JavaScript numbers are modelled as `Int` (the code only ever adds,
subtracts and compares integer counters) or `Rat` where the code divides.
`x || 0` null-coalescing is modelled as `Option.getD 0`; JS truthiness of
a nullable integer is `jsTruthyInt`.  A thrown JS error is modelled as
`Except.error` carrying the message.
-/

/-! ## Rendering helpers: JS `toFixed(2)` and `Math.round(x*100)/100` -/

/-- JS `x.toFixed(2)`: per ECMA-262, for negative `x` a sign is emitted and
`x` is negated, then the integer `n` with `n / 100` closest to `x` is chosen
(ties choose the larger `n`, i.e. half-up), and `n` is rendered with two
fractional digits. -/
def jsToFixed2 (q : ℚ) : String :=
  let s := if q < 0 then "-" else ""
  let n : ℤ := ⌊|q| * 100 + 1 / 2⌋
  s ++ toString (n / 100) ++ "." ++ (if n % 100 < 10 then "0" else "") ++ toString (n % 100)

/-- JS `Math.round(q * 100) / 100` (`Math.round x = ⌊x + 0.5⌋`), as used by
`calculateMovingAverages` in the automation service and by the trends route. -/
def round2 (q : ℚ) : ℚ := ((⌊q * 100 + 1 / 2⌋ : ℤ) : ℚ) / 100

/-- JS truthiness of a nullable integer field (`null`/`undefined` and `0` are falsy). -/
def jsTruthyInt : Option ℤ → Bool
  | none => false
  | some v => v ≠ 0

/-- JS `x || 0` on a nullable integer. -/
def jsOr0 (x : Option ℤ) : ℤ := x.getD 0

/-! ## Query execution gateway (`database.js`, `executeQuery`) -/

/-- The result shape of `executeQuery`: `{success: true, data}` or
`{success: false, error}`. -/
structure QueryResult (α : Type) where
  success : Bool
  data : Option α
  error : Option String
deriving DecidableEq

/-- `executeQuery` from `database.js`: awaits `pool.execute`, returns
`{success: true, data: results}` on success and catches any thrown error,
returning `{success: false, error: error.message}`.  The underlying
statement outcome is the `Except` argument; the function itself is total,
i.e. never throws to the caller. -/
def executeQuery (α : Type) (outcome : Except String α) : QueryResult α :=
  match outcome with
  | Except.ok results => { success := true, data := some results, error := none }
  | Except.error e => { success := false, data := none, error := some e }

/-! ## CovidCase model (`model/CovidCase.js`) -/

/-- The fields of a `CovidCase` instance used by the rate calculators and
`validate()`.  The constructor defaults every counter to `0` via `|| 0`;
`date` is kept nullable because `validate()` tests `!this.date`. -/
structure CovidCase where
  date : Option String
  total_cases : ℤ
  new_cases : ℤ
  active_cases : ℤ
  deaths : ℤ
  new_deaths : ℤ
  recovered : ℤ
  new_recovered : ℤ
  hospitalized : ℤ
  icu_patients : ℤ
  ventilator_patients : ℤ
deriving DecidableEq

/-- JS falsiness of the `date` field: `undefined`/`null` or the empty string. -/
def jsFalsyDate : Option String → Bool
  | none => true
  | some s => s = ""

/-- `getCaseFatalityRate()`: `total_cases > 0 ? ((deaths / total_cases) * 100).toFixed(2) : '0.00'`. -/
def CovidCase.getCaseFatalityRate (c : CovidCase) : String :=
  if c.total_cases > 0 then jsToFixed2 ((c.deaths : ℚ) / (c.total_cases : ℚ) * 100) else "0.00"

/-- `getRecoveryRate()`: `total_cases > 0 ? ((recovered / total_cases) * 100).toFixed(2) : '0.00'`. -/
def CovidCase.getRecoveryRate (c : CovidCase) : String :=
  if c.total_cases > 0 then jsToFixed2 ((c.recovered : ℚ) / (c.total_cases : ℚ) * 100) else "0.00"

/-- `getActiveCaseRate()`: `total_cases > 0 ? ((active_cases / total_cases) * 100).toFixed(2) : '0.00'`. -/
def CovidCase.getActiveCaseRate (c : CovidCase) : String :=
  if c.total_cases > 0 then jsToFixed2 ((c.active_cases : ℚ) / (c.total_cases : ℚ) * 100) else "0.00"

/-- The `{isValid, errors}` object returned by `validate()`. -/
structure ValidationOutcome where
  isValid : Bool
  errors : List String
deriving DecidableEq

/-- `CovidCase.validate()`: pushes one message per violated constraint, in
source order, and returns `isValid = (errors.length === 0)`. -/
def CovidCase.validate (c : CovidCase) : ValidationOutcome :=
  let errors :=
    (if jsFalsyDate c.date then ["Date is required"] else []) ++
    (if c.total_cases < 0 then ["Total cases cannot be negative"] else []) ++
    (if c.deaths < 0 then ["Deaths cannot be negative"] else []) ++
    (if c.recovered < 0 then ["Recovered cases cannot be negative"] else []) ++
    (if c.deaths > c.total_cases then ["Deaths cannot exceed total cases"] else []) ++
    (if c.recovered > c.total_cases then ["Recovered cases cannot exceed total cases"] else [])
  { isValid := errors.isEmpty, errors := errors }

/-! ## Data-refresh upserts (`automation.js`, `updateCovidData` and
`updateVaccinationData`) -/

/-- One row of the aggregate query
`SELECT SUM(total_cases) as total_cases, SUM(deaths) as total_deaths,
SUM(recovered) as total_recovered FROM covid_cases WHERE date = (SELECT
MAX(date) ... )`.  SQL `SUM` over an empty set is `NULL`, hence `Option`. -/
structure BaseTotals where
  total_cases : Option ℤ
  total_deaths : Option ℤ
  total_recovered : Option ℤ
deriving DecidableEq

/-- The JS object bound to `baseData` in `updateCovidData`: either the
hardcoded literal `{total_cases: 230000, deaths: 2800, recovered: 220000}`
or the query row, whose keys are `total_cases`, `total_deaths`,
`total_recovered`.  Both key families are kept because the literal has no
`total_deaths`/`total_recovered` keys while the query row has no
`deaths`/`recovered` keys, and the later reads use `|| 0`. -/
structure JsBaseData where
  total_cases : Option ℤ
  deaths : Option ℤ
  recovered : Option ℤ
  total_deaths : Option ℤ
  total_recovered : Option ℤ
deriving DecidableEq

/-- The hardcoded fallback `baseData` literal in `updateCovidData`. -/
def defaultBaseData : JsBaseData :=
  { total_cases := some 230000, deaths := some 2800, recovered := some 220000,
    total_deaths := none, total_recovered := none }

/-- `baseData` selection: `if (existingDataResult.success && data.length > 0
&& data[0].total_cases) baseData = existingDataResult.data[0]`.  The
argument is `none` when the query failed or returned a row whose
`total_cases` is falsy handling is folded into `jsTruthyInt`. -/
def chooseBase (queryRow : Option BaseTotals) : JsBaseData :=
  match queryRow with
  | some r =>
      if jsTruthyInt r.total_cases then
        { total_cases := r.total_cases, deaths := none, recovered := none,
          total_deaths := r.total_deaths, total_recovered := r.total_recovered }
      else defaultBaseData
  | none => defaultBaseData

/-- The columns written by the `updateCovidData` INSERT, in source order. -/
structure CaseRowVals where
  total_cases : ℤ
  new_cases : ℤ
  deaths : ℤ
  new_deaths : ℤ
  recovered : ℤ
  new_recovered : ℤ
  active_cases : ℤ
deriving DecidableEq

/-- `updatedData` as computed in `updateCovidData`:
`total_cases = (baseData.total_cases || 0) + newCases`,
`deaths = (baseData.total_deaths || 0) + newDeaths`,
`recovered = (baseData.total_recovered || 0) + newRecovered`, then
`active_cases = total_cases - deaths - recovered` with no clamping. -/
def updateCovidDataVals (queryRow : Option BaseTotals) (newCases newDeaths newRecovered : ℤ) :
    CaseRowVals :=
  let b := chooseBase queryRow
  let total := jsOr0 b.total_cases + newCases
  let deaths := jsOr0 b.total_deaths + newDeaths
  let recovered := jsOr0 b.total_recovered + newRecovered
  { total_cases := total, new_cases := newCases, deaths := deaths, new_deaths := newDeaths,
    recovered := recovered, new_recovered := newRecovered,
    active_cases := total - deaths - recovered }

/-- The `covid_cases` upsert in `updateCovidData`:
`INSERT ... ON DUPLICATE KEY UPDATE total_cases = VALUES(total_cases), ...,
active_cases = VALUES(active_cases)`.  The table has
`UNIQUE KEY unique_daily_region (date, region_id)`, so on a duplicate key
every listed column is overwritten with the inserted value: the resulting
row does not depend on the existing row. -/
def covidCasesUpsert (existing : Option CaseRowVals) (vals : CaseRowVals) : CaseRowVals :=
  match existing with
  | none => vals
  | some _ => vals

/-- One `updateCovidData` run against the row for today: compute the values
from the aggregate of the latest earlier date plus the random delta of the
run, then upsert into `covid_cases`. -/
def updateCovidDataRun (yesterdayAgg : Option BaseTotals) (newCases newDeaths newRecovered : ℤ)
    (todayRow : Option CaseRowVals) : CaseRowVals :=
  covidCasesUpsert todayRow (updateCovidDataVals yesterdayAgg newCases newDeaths newRecovered)

/-- The dose columns written by the `updateVaccinationData` INSERT. -/
structure VaccRowVals where
  first_dose : ℤ
  second_dose : ℤ
  booster_dose : ℤ
  total_doses : ℤ
deriving DecidableEq

/-- The `vaccinations` ON DUPLICATE KEY UPDATE clause in
`updateVaccinationData`: `first_dose = first_dose + VALUES(first_dose)` and
likewise for the other three dose counters, i.e. additive accumulation when
it keys against an existing row. -/
def vaccinationsUpsert (existing : Option VaccRowVals) (vals : VaccRowVals) : VaccRowVals :=
  match existing with
  | none => vals
  | some r =>
      { first_dose := r.first_dose + vals.first_dose,
        second_dose := r.second_dose + vals.second_dose,
        booster_dose := r.booster_dose + vals.booster_dose,
        total_doses := r.total_doses + vals.total_doses }

/-- Table-level effect of the `vaccinations` INSERT: the `CREATE TABLE`
for `vaccinations` in `createDatabase.js` declares only plain indexes and
no unique key on `(date, region_id)`, so the duplicate-key branch never
fires and each statement appends a fresh row. -/
def vaccinationsInsert (tbl : List VaccRowVals) (row : VaccRowVals) : List VaccRowVals :=
  tbl ++ [row]

/-- One `updateVaccinationData` run for one region: the inserted values are
the three random draws and `total_doses = firstDose + secondDose +
boosterDose`, fed through the ON DUPLICATE KEY UPDATE clause. -/
def updateVaccinationRun (firstDose secondDose boosterDose : ℤ)
    (existing : Option VaccRowVals) : VaccRowVals :=
  vaccinationsUpsert existing
    { first_dose := firstDose, second_dose := secondDose, booster_dose := boosterDose,
      total_doses := firstDose + secondDose + boosterDose }

/-! ## Daily statistics (`automation.js`, `calculateDailyStatistics`) -/

/-- `calculateDailyStatistics`: given the aggregate totals of today and
yesterday (each `SUM` is nullable), computes
`newX = (todayStats.total_X || 0) - (yesterdayStats.total_X || 0)` and
writes `Math.max(0, newX)` for cases, deaths and recovered. -/
def calculateDailyStatistics (today yesterday : BaseTotals) : ℤ × ℤ × ℤ :=
  let newCases := jsOr0 today.total_cases - jsOr0 yesterday.total_cases
  let newDeaths := jsOr0 today.total_deaths - jsOr0 yesterday.total_deaths
  let newRecovered := jsOr0 today.total_recovered - jsOr0 yesterday.total_recovered
  (max 0 newCases, max 0 newDeaths, max 0 newRecovered)

/-! ## Moving averages (`automation.js` `calculateMovingAverages`, and the
identical window computation in `GET /cases/trends`) -/

/-- One grouped row of the trends query: `SUM(new_cases) as daily_cases`
etc.; nullable because the reduce uses `(day.daily_cases || 0)`. -/
structure TrendRow where
  daily_cases : Option ℤ
  daily_deaths : Option ℤ
  daily_recovered : Option ℤ
deriving DecidableEq

/-- One element pushed onto `averages`. -/
structure TrendAvg where
  avg_cases : ℚ
  avg_deaths : ℚ
  avg_recovered : ℚ
deriving DecidableEq

/-- `calculateMovingAverages(data)`: `for (let i = 6; i < data.length; i++)`
take `window = data.slice(i - 6, i + 1)`, sum each counter with `|| 0`,
divide by 7 and round with `Math.round(avg * 100) / 100`. -/
def calculateMovingAverages (data : List TrendRow) : List TrendAvg :=
  ((List.range data.length).drop 6).map fun i =>
    let window := (data.drop (i - 6)).take (i + 1 - (i - 6))
    { avg_cases := round2 (((window.map fun day => jsOr0 day.daily_cases).sum : ℚ) / 7),
      avg_deaths := round2 (((window.map fun day => jsOr0 day.daily_deaths).sum : ℚ) / 7),
      avg_recovered := round2 (((window.map fun day => jsOr0 day.daily_recovered).sum : ℚ) / 7) }

/-- Modelled from the words of the spec, for comparison with the code: the
trailing 7-element window at index `i`, elements `i - 6` through `i`. -/
def trailingWindow (data : List TrendRow) (i : ℕ) : List TrendRow :=
  (data.drop (i - 6)).take 7

/-- Modelled from the words of the spec: the arithmetic mean of a counter
over a window (null counters count as 0, as in the code reduce). -/
def windowMean (f : TrendRow → Option ℤ) (w : List TrendRow) : ℚ :=
  ((w.map fun day => jsOr0 (f day)).sum : ℚ) / 7

/-- The value the code stores at window index `i`: the window mean of each
counter, rounded to two decimals. -/
def trailingWindowAvg (data : List TrendRow) (i : ℕ) : TrendAvg :=
  { avg_cases := round2 (windowMean TrendRow.daily_cases (trailingWindow data i)),
    avg_deaths := round2 (windowMean TrendRow.daily_deaths (trailingWindow data i)),
    avg_recovered := round2 (windowMean TrendRow.daily_recovered (trailingWindow data i)) }

/-- The 10-element `daily_cases` sequence `[5,6,7,8,9,10,11,12,13,14]` from
the testable properties of the spec. -/
def ex10 : List TrendRow :=
  [5, 6, 7, 8, 9, 10, 11, 12, 13, 14].map fun k =>
    { daily_cases := some k, daily_deaths := none, daily_recovered := none }

/-- A 7-element sequence whose first window mean `10 / 7` is not exactly
representable with two decimals. -/
def exRound : List TrendRow :=
  [1, 1, 1, 1, 1, 1, 4].map fun k =>
    { daily_cases := some k, daily_deaths := none, daily_recovered := none }

/-! ## Scheduler lifecycle (`automation.js`, `start` / `stop` / `getStatus`) -/

/-- The mutable state of the `AutomationService` singleton: the keys of the
`jobs` map (in insertion order) and the `isRunning` flag. -/
structure AutomationService where
  jobs : List String
  isRunning : Bool
deriving DecidableEq

/-- The state built by the constructor: `this.jobs = new Map()`,
`this.isRunning = false`. -/
def initialService : AutomationService := { jobs := [], isRunning := false }

/-- `Map.prototype.set` on the key set: an existing key keeps its position,
a new key is appended. -/
def mapSet (keys : List String) (k : String) : List String :=
  if k ∈ keys then keys else keys ++ [k]

/-- `start()`: if already running, log a warning and return (the `Bool`
component records that the warning branch was taken); otherwise set
`isRunning = true` and register the `dataUpdate`, `dailyStats` and
`weeklyReport` jobs, in that order. -/
def AutomationService.start (s : AutomationService) : AutomationService × Bool :=
  if s.isRunning then (s, true)
  else
    ({ isRunning := true,
       jobs := mapSet (mapSet (mapSet s.jobs "dataUpdate") "dailyStats") "weeklyReport" },
     false)

/-- `stop()`: stops every registered job, clears the registry
(`this.jobs.clear()`) and sets `isRunning = false`, unconditionally. -/
def AutomationService.stop (_s : AutomationService) : AutomationService :=
  { jobs := [], isRunning := false }

/-- The object returned by `getStatus()`. -/
structure ServiceStatus where
  isRunning : Bool
  activeJobs : List String
  jobCount : ℕ
  schedules : String × String × String
deriving DecidableEq

/-- `getStatus()`: `{isRunning, activeJobs: Array.from(this.jobs.keys()),
jobCount: this.jobs.size, schedules: ...}` with the three fixed cron
strings. -/
def AutomationService.getStatus (s : AutomationService) : ServiceStatus :=
  { isRunning := s.isRunning, activeJobs := s.jobs, jobCount := s.jobs.length,
    schedules := ("*/30 * * * *", "0 0 * * *", "0 23 * * 0") }

/-! ## Job failure handling (`automation.js`, `updateDataSource`,
`logError` and the scheduled callbacks) -/

/-- One row of the `data_sources` table (the columns touched by
`updateDataSource`; `last_updated` is a timestamp modelled as `ℕ`). -/
structure DataSourceRow where
  source_name : String
  error_count : ℤ
  last_error : Option String
  last_updated : ℕ
deriving DecidableEq

/-- The source name used by `updateCovidData`. -/
def kosovoSimSource : String := "Kosovo Health Ministry Simulation"

/-- `updateDataSource(sourceName, errorMessage)`: with a message, `UPDATE
data_sources SET error_count = error_count + 1, last_error = ?,
last_updated = CURRENT_TIMESTAMP WHERE source_name = ?`; with `null`, reset
`error_count = 0`, `last_error = NULL` and touch `last_updated`. -/
def updateDataSource (tbl : List DataSourceRow) (sourceName : String)
    (errorMessage : Option String) (now : ℕ) : List DataSourceRow :=
  tbl.map fun r =>
    if r.source_name = sourceName then
      match errorMessage with
      | some m =>
          { r with error_count := r.error_count + 1, last_error := some m, last_updated := now }
      | none => { r with error_count := 0, last_error := none, last_updated := now }
    else r

/-- `logError(operation, errorMessage)`: `console.error` only; it performs
no database write, so the table state is returned unchanged. -/
def logError (tbl : List DataSourceRow) (_operation _errorMessage : String) :
    List DataSourceRow := tbl

/-- Tail of `updateCovidData`: on success `updateDataSource(name, null)`
resets the row; the internal catch calls
`updateDataSource(name, error.message)` and does not rethrow. -/
def updateCovidDataStatus (tbl : List DataSourceRow) (outcome : Except String Unit)
    (now : ℕ) : List DataSourceRow :=
  match outcome with
  | Except.ok _ => updateDataSource tbl kosovoSimSource none now
  | Except.error m => updateDataSource tbl kosovoSimSource (some m) now

/-- The 30-minute data-update callback: its try/catch wraps the three
updaters, each of which already catches internally, so the callback always
returns normally; the `data_sources` effect is that of `updateCovidData`. -/
def dataUpdateTick (tbl : List DataSourceRow) (covidOutcome : Except String Unit)
    (now : ℕ) : Except String (List DataSourceRow) :=
  Except.ok (updateCovidDataStatus tbl covidOutcome now)

/-- The midnight daily-statistics callback: `try ... catch (error)
{ console.error(...); await this.logError('daily_stats', error.message); }`
-- the error is caught and only logged to the console; no `data_sources`
row is written. -/
def dailyStatsTick (tbl : List DataSourceRow) (outcome : Except String Unit) :
    Except String (List DataSourceRow) :=
  match outcome with
  | Except.ok _ => Except.ok tbl
  | Except.error m => Except.ok (logError tbl "daily_stats" m)

/-- The weekly-report callback: same catch shape with
`logError('weekly_report', error.message)`; console only. -/
def weeklyReportTick (tbl : List DataSourceRow) (outcome : Except String Unit) :
    Except String (List DataSourceRow) :=
  match outcome with
  | Except.ok _ => Except.ok tbl
  | Except.error m => Except.ok (logError tbl "weekly_report" m)

/-- A concrete `data_sources` row for the counterexample: fresh, no errors
recorded. -/
def freshSourceRow : DataSourceRow :=
  { source_name := kosovoSimSource, error_count := 0, last_error := none, last_updated := 0 }

/-! ## POST /cases active cases and GET /cases/latest (`routes/cases.js`) -/

/-- `POST /cases`: `const active_cases = total_cases - deaths - recovered;`
-- no clamping. -/
def postActiveCases (total_cases deaths recovered : ℤ) : ℤ :=
  total_cases - deaths - recovered

/-- A stored `covid_cases` row as seen by `GET /cases/latest` (only the
columns the handler logic inspects: the region filter and the ordering
date, modelled as an ordinal). -/
structure StoredCaseRow where
  region_id : Option ℤ
  date : ℕ
deriving DecidableEq

/-- The JSON response of `GET /cases/latest`. -/
structure LatestResponse where
  status : ℕ
  success : Bool
  data : Option StoredCaseRow
  error : Option String
deriving DecidableEq

/-- The optional `WHERE c.region_id = ?` filter. -/
def latestFiltered (rows : List StoredCaseRow) (regionId : Option ℤ) : List StoredCaseRow :=
  match regionId with
  | some rid => rows.filter fun r => r.region_id = some rid
  | none => rows

/-- `ORDER BY c.date DESC LIMIT 1`: some row of maximal date, `none` on an
empty result set. -/
def orderByDateDescLimit1 (rows : List StoredCaseRow) : Option StoredCaseRow :=
  rows.foldl
    (fun acc r =>
      match acc with
      | none => some r
      | some best => if r.date > best.date then some r else acc)
    none

/-- The `GET /cases/latest` handler: a failed query yields HTTP 500 with an
error envelope; a successful query yields HTTP 200 with
`data: result.data[0] || null`. -/
def latestHandler (dbOutcome : Except String (List StoredCaseRow)) (regionId : Option ℤ) :
    LatestResponse :=
  match dbOutcome with
  | Except.error e =>
      { status := 500, success := false, data := none, error := some e }
  | Except.ok rows =>
      { status := 200, success := true,
        data := orderByDateDescLimit1 (latestFiltered rows regionId), error := none }

/-- An existing row for today used in the upsert counterexample. -/
def existingTodayRow : CaseRowVals :=
  { total_cases := 7, new_cases := 0, deaths := 0, new_deaths := 0,
    recovered := 0, new_recovered := 0, active_cases := 7 }

/-- Concrete rows for the latest-route witness: one row in region 1. -/
def regionOneRow : StoredCaseRow := { region_id := some 1, date := 10 }

/-- The concrete case of the spec: `total_cases = 200`, `deaths = 10`. -/
def case200 : CovidCase :=
  { date := some "2021-01-01", total_cases := 200, new_cases := 0, active_cases := 0,
    deaths := 10, new_deaths := 0, recovered := 0, new_recovered := 0,
    hospitalized := 0, icu_patients := 0, ventilator_patients := 0 }

/-- A record violating `deaths <= total_cases`. -/
def badCase : CovidCase :=
  { date := some "2021-01-01", total_cases := 5, new_cases := 0, active_cases := 0,
    deaths := 9, new_deaths := 0, recovered := 0, new_recovered := 0,
    hospitalized := 0, icu_patients := 0, ventilator_patients := 0 }

/-! ## Theorems -/

/-- C7: for every query outcome, `executeQuery` returns `{success: true,
data}` when the underlying statement succeeds and `{success: false, error}`
with the error message on any underlying failure; being a total function of
the outcome, it never throws to its caller. -/
theorem executeQuery_never_throws :
    ∀ (α : Type) (d : α) (e : String),
      executeQuery α (Except.ok d) = { success := true, data := some d, error := none } ∧
      executeQuery α (Except.error e) = { success := false, data := none, error := some e } :=
  fun _ _ _ => ⟨rfl, rfl⟩

/-- C2: the daily statistics job writes, for each of cases, deaths and
recovered, exactly `max 0 (today_total - yesterday_total)`; in particular
every written value is nonnegative. -/
theorem daily_statistics_clamped_difference :
    (∀ tc td tr yc yd yr : ℤ,
        calculateDailyStatistics ⟨some tc, some td, some tr⟩ ⟨some yc, some yd, some yr⟩
          = (max 0 (tc - yc), max 0 (td - yd), max 0 (tr - yr))) ∧
    (∀ today yesterday : BaseTotals,
        0 ≤ (calculateDailyStatistics today yesterday).1 ∧
        0 ≤ (calculateDailyStatistics today yesterday).2.1 ∧
        0 ≤ (calculateDailyStatistics today yesterday).2.2) := by
  constructor
  · intro tc td tr yc yd yr
    simp [calculateDailyStatistics, jsOr0]
  · intro today yesterday
    refine ⟨?_, ?_, ?_⟩ <;> simp [calculateDailyStatistics]

/-- C3 (amended): both the automation service and `POST /cases` compute
`active_cases` as the unclamped difference
`total_cases - deaths - recovered`; no `max 0` is applied. -/
theorem active_cases_formula_unclamped :
    (∀ (base : Option BaseTotals) (nc nd nr : ℤ),
        (updateCovidDataVals base nc nd nr).active_cases
          = (updateCovidDataVals base nc nd nr).total_cases
            - (updateCovidDataVals base nc nd nr).deaths
            - (updateCovidDataVals base nc nd nr).recovered) ∧
    (∀ t d r : ℤ, postActiveCases t d r = t - d - r) :=
  ⟨fun _ _ _ _ => rfl, fun _ _ _ => rfl⟩

/-- C3 counterexample: with a yesterday aggregate of 100 cases, 0 deaths,
200 recovered and the delta (10, 0, 20), the automation service stores
`active_cases = -110`, which is negative and differs from the clamped value
`max 0 (110 - 0 - 220) = 0`; likewise `POST /cases` with totals
(100, 0, 200) stores `-100`, not `max 0 (-100)`. -/
theorem active_cases_unclamped_counterexample :
    (updateCovidDataVals (some ⟨some 100, some 0, some 200⟩) 10 0 20).active_cases = -110 ∧
    max 0 ((updateCovidDataVals (some ⟨some 100, some 0, some 200⟩) 10 0 20).total_cases
        - (updateCovidDataVals (some ⟨some 100, some 0, some 200⟩) 10 0 20).deaths
        - (updateCovidDataVals (some ⟨some 100, some 0, some 200⟩) 10 0 20).recovered) = 0 ∧
    ((-110 : ℤ) ≠ 0) ∧ ((-110 : ℤ) < 0) ∧
    postActiveCases 100 0 200 = -100 ∧ ((-100 : ℤ) ≠ max 0 (-100)) := by
  refine ⟨rfl, by decide, by decide, by decide, rfl, by decide⟩

/-- C1 (amended): the covid-cases refresh upsert overwrites every listed
counter with `VALUES(...)` computed from the aggregate base of the previous
day (or the hardcoded default) plus the delta of the run, independently of
the existing row, so re-running accumulates nothing beyond one delta over
that base; only the vaccinations ON DUPLICATE KEY UPDATE clause is
additive (`c + d` per run against an existing row), and at table level each
vaccination insert appends a new row since the table has no unique key. -/
theorem data_refresh_upsert_semantics :
    (∀ (base : Option BaseTotals) (nc nd nr : ℤ) (e1 e2 : Option CaseRowVals),
        updateCovidDataRun base nc nd nr e1 = updateCovidDataRun base nc nd nr e2) ∧
    (∀ (base : Option BaseTotals) (nc nd nr : ℤ) (e : Option CaseRowVals),
        (updateCovidDataRun base nc nd nr e).total_cases
          = jsOr0 (chooseBase base).total_cases + nc) ∧
    (∀ r v : VaccRowVals,
        vaccinationsUpsert (some r) v
          = { first_dose := r.first_dose + v.first_dose,
              second_dose := r.second_dose + v.second_dose,
              booster_dose := r.booster_dose + v.booster_dose,
              total_doses := r.total_doses + v.total_doses }) ∧
    (∀ v : VaccRowVals, vaccinationsUpsert none v = v) ∧
    (∀ (tbl : List VaccRowVals) (row : VaccRowVals),
        (vaccinationsInsert tbl row).length = tbl.length + 1) := by
  refine ⟨?_, ?_, ?_, ?_, ?_⟩
  · intro base nc nd nr e1 e2
    cases e1 <;> cases e2 <;> rfl
  · intro base nc nd nr e
    cases e <;> rfl
  · intro r v
    rfl
  · intro v
    rfl
  · intro tbl row
    simp [vaccinationsInsert]

/-- C1 counterexample: today already holds a row with `total_cases = 7`;
one more run with delta 10 (no earlier rows, so the hardcoded base 230000
is used) leaves `total_cases = 230010`, not `7 + 10`: the upsert does not
add the delta to the existing counter. -/
theorem covid_upsert_not_additive_counterexample :
    existingTodayRow.total_cases = 7 ∧
    (updateCovidDataRun none 10 0 0 (some existingTodayRow)).total_cases = 230010 ∧
    ((230010 : ℤ) ≠ 7 + 10) := by
  refine ⟨rfl, rfl, by decide⟩

/-- C4 (amended): the moving average is produced only for indices `i >= 6`
(the output has `length - 6` entries, entry `j` belonging to index
`j + 6`), and each stored value is the arithmetic mean of the trailing
7-element window rounded to two decimals via `Math.round(avg * 100) / 100`;
on the spec input `[5,...,14]` the values are exact, `8` at index 6 and
`11` at index 9. -/
theorem moving_average_window_correct :
    (∀ data : List TrendRow, (calculateMovingAverages data).length = data.length - 6) ∧
    (∀ (data : List TrendRow) (j : ℕ), j + 6 < data.length →
        (calculateMovingAverages data)[j]? = some (trailingWindowAvg data (j + 6))) ∧
    ((calculateMovingAverages ex10).map TrendAvg.avg_cases = [8, 9, 10, 11]) := by
  refine ⟨?_, ?_, ?_⟩
  · intro data
    simp [calculateMovingAverages]
  · intro data j h
    have hj : 6 + j < data.length := by omega
    rw [calculateMovingAverages]
    rw [List.getElem?_map, List.getElem?_drop, List.getElem?_range hj]
    simp only [Option.map_some']
    have h1 : 6 + j - 6 = j := by omega
    have h3 : j + 6 - 6 = j := by omega
    rw [h1]
    have h2 : 6 + j + 1 - j = 7 := by omega
    rw [h2]
    simp [trailingWindowAvg, trailingWindow, windowMean, h3]
  · norm_num [calculateMovingAverages, ex10, List.range_succ, round2, jsOr0]

/-- C4 witness: on the concrete spec input, the entry for index `0 + 6`
exists and is the rounded trailing-window mean. -/
theorem moving_average_window_witness :
    (0 + 6 < ex10.length) ∧
    (calculateMovingAverages ex10)[0]? = some (trailingWindowAvg ex10 (0 + 6)) :=
  ⟨by decide, moving_average_window_correct.2.1 ex10 0 (by decide)⟩

/-- C4 counterexample: on daily cases `[1,1,1,1,1,1,4]` the window mean at
index 6 is `10 / 7`, but the code stores `1.43 = 143 / 100`, so the stored
moving average does not equal the arithmetic mean of the window. -/
theorem moving_average_rounded_counterexample :
    (calculateMovingAverages exRound).map TrendAvg.avg_cases = [143 / 100] ∧
    windowMean TrendRow.daily_cases (trailingWindow exRound 6) = 10 / 7 ∧
    ((143 / 100 : ℚ) ≠ 10 / 7) := by
  refine ⟨?_, ?_, by norm_num⟩
  · norm_num [calculateMovingAverages, exRound, List.range_succ, round2, jsOr0]
  · norm_num [windowMean, trailingWindow, exRound, jsOr0]

/-- C5: a second `start()` while running is a no-op (the warning branch is
taken and the state, including the registry of exactly the three jobs, is
unchanged); `stop()` clears the registry unconditionally, after which
`getStatus()` reports `isRunning = false` and a job count of 0. -/
theorem scheduler_lifecycle :
    (∀ s : AutomationService, s.isRunning = true → AutomationService.start s = (s, true)) ∧
    ((AutomationService.start initialService).1.jobs
        = ["dataUpdate", "dailyStats", "weeklyReport"]) ∧
    (∀ s : AutomationService,
        (AutomationService.start (AutomationService.start s).1).1
          = (AutomationService.start s).1) ∧
    (∀ s : AutomationService,
        AutomationService.getStatus (AutomationService.stop s)
          = { isRunning := false, activeJobs := [], jobCount := 0,
              schedules := ("*/30 * * * *", "0 0 * * *", "0 23 * * 0") }) := by
  refine ⟨?_, ?_, ?_, ?_⟩
  · intro s h
    simp [AutomationService.start, h]
  · decide
  · intro s
    cases s with
    | mk jobs running =>
      cases running <;> simp [AutomationService.start]
  · intro s
    rfl

/-- C5 witness: after one `start()` from the initial state the service is
running, and a second `start()` returns the same state with the warning
flag. -/
theorem scheduler_lifecycle_witness :
    (AutomationService.start initialService).1.isRunning = true ∧
    AutomationService.start (AutomationService.start initialService).1
      = ((AutomationService.start initialService).1, true) :=
  ⟨rfl, scheduler_lifecycle.1 (AutomationService.start initialService).1 rfl⟩

/-- C6 (amended): every scheduled callback catches failures and returns
normally (no retry inside the tick), and a covid-data update failure
increments `error_count`, stores the message in `last_error` and touches
`last_updated` on its `data_sources` row; but failures of the
daily-statistics and weekly-report jobs only reach `logError`, which writes
no `data_sources` row, leaving the table unchanged. -/
theorem job_failure_isolation :
    (∀ (tbl : List DataSourceRow) (o : Except String Unit) (now : ℕ),
        ∃ t, dataUpdateTick tbl o now = Except.ok t) ∧
    (∀ (tbl : List DataSourceRow) (o : Except String Unit),
        ∃ t, dailyStatsTick tbl o = Except.ok t) ∧
    (∀ (tbl : List DataSourceRow) (o : Except String Unit),
        ∃ t, weeklyReportTick tbl o = Except.ok t) ∧
    (∀ (tbl : List DataSourceRow) (m : String) (now : ℕ) (r : DataSourceRow),
        r ∈ tbl → r.source_name = kosovoSimSource →
        { r with error_count := r.error_count + 1, last_error := some m, last_updated := now }
          ∈ updateCovidDataStatus tbl (Except.error m) now) ∧
    (∀ (tbl : List DataSourceRow) (m : String),
        dailyStatsTick tbl (Except.error m) = Except.ok tbl) ∧
    (∀ (tbl : List DataSourceRow) (m : String),
        weeklyReportTick tbl (Except.error m) = Except.ok tbl) := by
  refine ⟨?_, ?_, ?_, ?_, ?_, ?_⟩
  · intro tbl o now
    exact ⟨_, rfl⟩
  · intro tbl o
    cases o <;> exact ⟨_, rfl⟩
  · intro tbl o
    cases o <;> exact ⟨_, rfl⟩
  · intro tbl m now r hr hname
    have e : updateCovidDataStatus tbl (Except.error m) now
        = updateDataSource tbl kosovoSimSource (some m) now := rfl
    rw [e, updateDataSource]
    refine List.mem_map.mpr ⟨r, hr, ?_⟩
    simp [hname]
  · intro tbl m
    rfl
  · intro tbl m
    rfl

/-- C6 witness: a concrete covid-data failure increments the matching
`data_sources` row. -/
theorem job_failure_isolation_witness :
    freshSourceRow ∈ [freshSourceRow] ∧
    freshSourceRow.source_name = kosovoSimSource ∧
    { freshSourceRow with error_count := freshSourceRow.error_count + 1, last_error := some "boom", last_updated := 5 } ∈ updateCovidDataStatus [freshSourceRow] (Except.error "boom") 5 :=
  ⟨List.mem_singleton_self _, rfl,
    job_failure_isolation.2.2.2.1 [freshSourceRow] "boom" 5 freshSourceRow
      (List.mem_singleton_self _) rfl⟩

/-- C6 counterexample: a daily-statistics job failure leaves the
`data_sources` table untouched -- the fresh row keeps `error_count = 0` and
`last_error = NULL`, contradicting the claimed increment and message
recording. -/
theorem daily_stats_failure_not_recorded_counterexample :
    dailyStatsTick [freshSourceRow] (Except.error "db down") = Except.ok [freshSourceRow] ∧
    freshSourceRow.error_count = 0 ∧ freshSourceRow.last_error = none ∧
    dailyStatsTick [freshSourceRow] (Except.error "db down")
      ≠ Except.ok [{ freshSourceRow with error_count := freshSourceRow.error_count + 1, last_error := some "db down" }] := by
  refine ⟨rfl, rfl, rfl, ?_⟩
  intro h
  simp [dailyStatsTick, logError, freshSourceRow] at h

/-- C8: each rate calculator renders `numerator / denominator * 100` with
`toFixed(2)` when `total_cases > 0` and returns the string `"0.00"`
otherwise; in particular 10 deaths over 200 cases gives `"5.00"` and a
zero denominator gives `"0.00"`. -/
theorem rate_calculators_fixed2 :
    (∀ c : CovidCase, c.total_cases ≤ 0 →
        c.getCaseFatalityRate = "0.00" ∧ c.getRecoveryRate = "0.00" ∧
        c.getActiveCaseRate = "0.00") ∧
    (∀ c : CovidCase, 0 < c.total_cases →
        c.getCaseFatalityRate = jsToFixed2 ((c.deaths : ℚ) / (c.total_cases : ℚ) * 100) ∧
        c.getRecoveryRate = jsToFixed2 ((c.recovered : ℚ) / (c.total_cases : ℚ) * 100) ∧
        c.getActiveCaseRate = jsToFixed2 ((c.active_cases : ℚ) / (c.total_cases : ℚ) * 100)) ∧
    (∀ c : CovidCase, c.total_cases = 200 → c.deaths = 10 →
        c.getCaseFatalityRate = "5.00") ∧
    (∀ c : CovidCase, c.total_cases = 0 → c.getCaseFatalityRate = "0.00") := by
  refine ⟨?_, ?_, ?_, ?_⟩
  · intro c h
    have hn : ¬ c.total_cases > 0 := by omega
    refine ⟨?_, ?_, ?_⟩ <;>
      simp [CovidCase.getCaseFatalityRate, CovidCase.getRecoveryRate,
        CovidCase.getActiveCaseRate, hn]
  · intro c h
    refine ⟨?_, ?_, ?_⟩ <;>
      simp [CovidCase.getCaseFatalityRate, CovidCase.getRecoveryRate,
        CovidCase.getActiveCaseRate, h]
  · intro c h1 h2
    rw [CovidCase.getCaseFatalityRate, h1, h2]
    norm_num [jsToFixed2]
    rfl
  · intro c h
    rw [CovidCase.getCaseFatalityRate, h]
    norm_num

/-- C8 witness: the spec instance `total_cases = 200`, `deaths = 10`
renders `"5.00"`. -/
theorem rate_calculators_fixed2_witness :
    case200.total_cases = 200 ∧ case200.deaths = 10 ∧
    case200.getCaseFatalityRate = "5.00" :=
  ⟨rfl, rfl, rate_calculators_fixed2.2.2.1 case200 rfl rfl⟩

/-- C9: whenever `deaths > total_cases` or `recovered > total_cases`,
`validate()` returns `isValid: false`, and each violated constraint
contributes its descriptive message to `errors`. -/
theorem validate_rejects_exceeding_counters :
    ∀ c : CovidCase, (c.deaths > c.total_cases ∨ c.recovered > c.total_cases) →
      (c.validate).isValid = false ∧
      (c.deaths > c.total_cases →
        "Deaths cannot exceed total cases" ∈ (c.validate).errors) ∧
      (c.recovered > c.total_cases →
        "Recovered cases cannot exceed total cases" ∈ (c.validate).errors) := by
  intro c h
  have hmem1 : c.deaths > c.total_cases →
      "Deaths cannot exceed total cases" ∈ (c.validate).errors := by
    intro hd
    simp [CovidCase.validate, hd]
  have hmem2 : c.recovered > c.total_cases →
      "Recovered cases cannot exceed total cases" ∈ (c.validate).errors := by
    intro hr
    simp [CovidCase.validate, hr]
  refine ⟨?_, hmem1, hmem2⟩
  have hne : (c.validate).errors ≠ [] := by
    rcases h with hd | hr
    · exact List.ne_nil_of_mem (hmem1 hd)
    · exact List.ne_nil_of_mem (hmem2 hr)
  have e : (c.validate).isValid = (c.validate).errors.isEmpty := rfl
  rw [e]
  cases he : (c.validate).errors with
  | nil => exact absurd he hne
  | cons a l => rfl

/-- C9 witness: the record with `deaths = 9 > total_cases = 5` is rejected
with the descriptive message. -/
theorem validate_rejects_exceeding_counters_witness :
    (badCase.deaths > badCase.total_cases ∨ badCase.recovered > badCase.total_cases) ∧
    (badCase.validate).isValid = false ∧
    "Deaths cannot exceed total cases" ∈ (badCase.validate).errors :=
  ⟨Or.inl (by decide),
    (validate_rejects_exceeding_counters badCase (Or.inl (by decide))).1,
    (validate_rejects_exceeding_counters badCase (Or.inl (by decide))).2.1 (by decide)⟩

/-- C10: when no `covid_cases` row matches (empty table or non-matching
region filter), `GET /cases/latest` answers HTTP 200 with
`{success: true, data: null}` and not with a 404. -/
theorem latest_empty_returns_200_null :
    ∀ (rows : List StoredCaseRow) (regionId : Option ℤ),
      latestFiltered rows regionId = [] →
      latestHandler (Except.ok rows) regionId
        = { status := 200, success := true, data := none, error := none } ∧
      (latestHandler (Except.ok rows) regionId).status ≠ 404 := by
  intro rows regionId h
  have e : latestHandler (Except.ok rows) regionId
      = { status := 200, success := true, data := none, error := none } := by
    simp [latestHandler, h, orderByDateDescLimit1]
  exact ⟨e, by rw [e]; decide⟩

/-- C10 witness: a table holding only a region-1 row, queried with the
region-2 filter, yields 200 with null data. -/
theorem latest_empty_returns_200_null_witness :
    latestFiltered [regionOneRow] (some 2) = [] ∧
    latestHandler (Except.ok [regionOneRow]) (some 2)
      = { status := 200, success := true, data := none, error := none } :=
  ⟨by decide, (latest_empty_returns_200_null [regionOneRow] (some 2) (by decide)).1⟩
